import Mathlib

/-!
Verification of the device/network state manager of the iwd TUI
(`scripts/iwd.py`): a shallow embedding of the `NetworkManager` parsing
and control operations and of the `IwdTUI.update_status` projection,
together with theorems about their behaviour.

The external command runner (`run_command`) is abstracted as a function
from the argv list and optional stdin text to the pair
`(returncode == 0, stdout)`, exactly the tuple the Python method returns.
-/

namespace Iwd

/-- Python substring containment `needle in s` on strings. -/
def containsSub (needle s : String) : Bool := decide (needle.data <:+: s.data)

/-- Worker for `pySplit`: walks the character list keeping the current
word reversed in `acc`, emitting it at whitespace, as Python
`str.split()` with no separator argument does. -/
def pySplitAux : List Char → List Char → List (List Char)
  | acc, [] => if acc = [] then [] else [acc.reverse]
  | acc, c :: cs =>
    if c.isWhitespace then
      if acc = [] then pySplitAux [] cs else acc.reverse :: pySplitAux [] cs
    else pySplitAux (c :: acc) cs

/-- Python `line.split()`: tokens separated by runs of whitespace,
never containing an empty token. -/
def pySplit (s : String) : List String := (pySplitAux [] s.data).map String.mk

/-- Truthiness of Python `line.strip()`: the line has a non-whitespace
character. -/
def stripTruthy (s : String) : Bool := s.data.any (fun c => !c.isWhitespace)

/-- Python `s.startswith(needle)`. -/
def pyStartsWith (s needle : String) : Bool := needle.data.isPrefixOf s.data

/-- Worker for `pyLines`: split at every newline character, keeping
empty pieces, as Python `s.split('\n')` does. -/
def pyLinesAux : List Char → List Char → List String
  | acc, [] => [String.mk acc.reverse]
  | acc, c :: cs =>
    if c = '\n' then String.mk acc.reverse :: pyLinesAux [] cs
    else pyLinesAux (c :: acc) cs

/-- Python `output.split('\n')`. -/
def pyLines (s : String) : List String := pyLinesAux [] s.data

/-- Python `s.strip()`: the string without leading and trailing
whitespace. -/
def pyStrip (s : String) : String :=
  String.mk (((s.data.dropWhile Char.isWhitespace).reverse.dropWhile Char.isWhitespace).reverse)

/-- Worker for `pyReplace`, fuelled to stay structurally recursive: at
each position, a (non-empty) pattern occurrence is replaced and skipped,
otherwise one character is kept.  The fuel is at least the length of the
remaining text at every call. -/
def pyReplaceAux (pat rep : List Char) : Nat → List Char → List Char
  | _, [] => []
  | 0, s => s
  | fuel + 1, c :: cs =>
    if pat.isPrefixOf (c :: cs) then rep ++ pyReplaceAux pat rep fuel (cs.drop (pat.length - 1))
    else c :: pyReplaceAux pat rep fuel cs

/-- Python `s.replace(pat, rep)` for a non-empty pattern: replace every
non-overlapping occurrence, scanning left to right. -/
def pyReplace (s pat rep : String) : String :=
  String.mk (pyReplaceAux pat.data rep.data s.data.length s.data)

/-- Value of a list of decimal digit characters. -/
def digitsVal (l : List Char) : Nat := l.foldl (fun a c => 10 * a + (c.toNat - 48)) 0

/-- Python `int(s)` on an already-stripped token: an optional sign
followed by at least one digit. -/
def pyInt (s : String) : Option Int :=
  match s.data with
  | '-' :: ds => if ds ≠ [] ∧ ds.all Char.isDigit then some (-(digitsVal ds : Int)) else none
  | '+' :: ds => if ds ≠ [] ∧ ds.all Char.isDigit then some (digitsVal ds : Int) else none
  | ds => if ds ≠ [] ∧ ds.all Char.isDigit then some (digitsVal ds : Int) else none

/-- The `NetworkDevice` dataclass. -/
structure NetworkDevice where
  name : String
  type : String
  powered : Bool
  connected : Bool
  network : String := ""
  address : String := ""
deriving DecidableEq

/-- The `WirelessNetwork` dataclass.  `signal_strength` is a `Nat`
because the parser only ever stores an absolute value or the default 50. -/
structure WirelessNetwork where
  ssid : String
  security : String
  signal_strength : Nat
  connected : Bool := false
  known : Bool := false
  frequency : String := ""
deriving DecidableEq

/-- The mutable fields of `NetworkManager`: the stored device and
network snapshots. -/
structure MgrState where
  devices : List NetworkDevice
  networks : List WirelessNetwork
deriving DecidableEq

/-- Abstract command executor standing for `run_command`. -/
def Exec := List String → Option String → Bool × String

/-- The device a kept row of `get_devices` is parsed into. -/
def deviceOfRow (line : String) : NetworkDevice :=
  let parts := pySplit line
  { name := parts.getD 0 ""
    type := parts.getD 1 ""
    powered := containsSub "on" line
    connected := containsSub "connected" line
    network :=
      if 3 < parts.length ∧ containsSub "connected" line = true then parts.getD 3 ""
      else "" }

/-- One iteration of the `get_devices` row loop: a row contributes a
device when it is non-blank, does not start with `-`, and has at least
3 whitespace tokens. -/
def deviceRow? (line : String) : Option NetworkDevice :=
  if stripTruthy line = true ∧ pyStartsWith line "-" = false then
    if 3 ≤ (pySplit line).length then some (deviceOfRow line) else none
  else none

/-- The row loop of `get_devices` over `output.split('\n')`, which drops
the 3 header lines. -/
def parseDeviceLines (lines : List String) : List NetworkDevice :=
  (lines.drop 3).filterMap deviceRow?

/-- Parsing of raw device-list output text. -/
def parseDevices (output : String) : List NetworkDevice :=
  parseDeviceLines (pyLines output)

/-- `NetworkManager.get_devices`: run the device-list command, build the
device list (empty unless the command succeeded), store it wholesale and
return it. -/
def get_devices (ex : Exec) (st : MgrState) : MgrState × List NetworkDevice :=
  let r := ex ["iwctl", "device", "list"] none
  let devices := if r.fst = true then parseDevices r.snd else []
  ({ st with devices := devices }, devices)

/-- One step of the signal-strength loop in `scan_networks`: a token
containing `dBm` overwrites the running value with the absolute value of
the stripped integer when it parses, and is ignored otherwise. -/
def sigStep (signal : Nat) (part : String) : Nat :=
  if containsSub "dBm" part = true then
    match pyInt (pyStrip (pyReplace part "dBm" "")) with
    | some n => n.natAbs
    | none => signal
  else signal

/-- The signal-strength loop of `scan_networks`, starting from the
default 50. -/
def parseSignal (parts : List String) : Nat := parts.foldl sigStep 50

/-- The network a kept row of `scan_networks` is parsed into. -/
def networkOfRow (line : String) : WirelessNetwork :=
  let parts := pySplit line
  { ssid := parts.getD 0 ""
    security := if containsSub "PSK" line = true ∨ containsSub "802.1X" line = true then "secured" else "open"
    signal_strength := parseSignal parts
    connected := containsSub ">" line }

/-- One iteration of the `scan_networks` row loop: a non-blank row not
starting with `-` whose token list is non-empty contributes a network. -/
def networkRow? (line : String) : Option WirelessNetwork :=
  if stripTruthy line = true ∧ pyStartsWith line "-" = false then
    if pySplit line = [] then none else some (networkOfRow line)
  else none

/-- The row loop of `scan_networks` over `output.split('\n')`, which
drops the 4 header lines. -/
def parseNetworkLines (lines : List String) : List WirelessNetwork :=
  (lines.drop 4).filterMap networkRow?

/-- Parsing of raw network-list output text. -/
def parseNetworks (output : String) : List WirelessNetwork :=
  parseNetworkLines (pyLines output)

/-- Python falsiness of the optional device argument (`None` or `""`). -/
def strFalsy : Option String → Bool
  | none => true
  | some s => s == ""

/-- The device-selection loop of `scan_networks`: the first stored
device whose type is `station` and which is powered. -/
def selectStation (devices : List NetworkDevice) : Option NetworkDevice :=
  devices.find? (fun d => d.type == "station" && d.powered)

/-- `NetworkManager.scan_networks`: pick a device when none was given,
return `[]` without touching the state when there is still no device,
otherwise trigger a scan (result discarded), query the network list,
parse it and store the outcome wholesale. -/
def scan_networks (ex : Exec) (st : MgrState) (device0 : Option String) :
    MgrState × List WirelessNetwork :=
  let device :=
    if strFalsy device0 = true ∧ st.devices ≠ [] then
      match selectStation st.devices with
      | some d => some d.name
      | none => device0
    else device0
  if strFalsy device = true then (st, [])
  else
    let dev := device.getD ""
    let _ := ex ["iwctl", "station", dev, "scan"] none
    let r := ex ["iwctl", "station", dev, "get-networks"] none
    let networks := if r.fst = true then parseNetworks r.snd else []
    ({ st with networks := networks }, networks)

/-- `NetworkManager.connect_to_network`: issue the connect command with
the password on stdin; on success refresh the devices and verify that
some device is connected to `ssid`, otherwise report the failure. -/
def connect_to_network (ex : Exec) (st : MgrState) (device ssid : String)
    (password : Option String) : MgrState × Bool × String :=
  let r := ex ["iwctl", "station", device, "connect", ssid] password
  if r.fst = true then
    let res := get_devices ex st
    match res.snd.find? (fun d => d.connected && d.network == ssid) with
    | some _ => (res.fst, true, "Connected to " ++ ssid)
    | none => (res.fst, false, "Connection verification failed")
  else (st, false, "Connection failed: " ++ r.snd)

/-- `IwdTUI.update_status`: the pair
`(connection_status, active_connection)` derived from the stored
devices, taking the first connected device in stored order. -/
def update_status (devices : List NetworkDevice) : String × String :=
  match devices.find? (fun d => d.connected) with
  | some d => ("connected to " ++ (d.network ++ " on " ++ d.name), d.network ++ " on " ++ d.name)
  | none => ("disconnected", "")

/-! Concrete fixtures used by witnesses and counterexamples. -/

/-- An executor whose every command fails at the process level. -/
def exFail : Exec := fun _ _ => (false, "boom")

/-- An executor whose every command succeeds with a 4-line output that
contains no data rows. -/
def exEmptyNets : Exec := fun _ _ => (true, "a\nb\nc\nd")

/-- A store holding one powered, unconnected station device. -/
def stOne : MgrState :=
  { devices := [{ name := "wlan0", type := "station", powered := true, connected := false }]
    networks := [] }

/-- The empty store. -/
def stEmpty : MgrState := { devices := [], networks := [] }

/-- An executor whose scan-trigger command fails while the network-list
query succeeds with one data row. -/
def exScanFail : Exec := fun cmd _ =>
  if cmd = ["iwctl", "station", "wlan0", "scan"] then (false, "scan refused")
  else (true, "h\nh\nh\nh\nOfficeWiFi PSK -55dBm")

/-- An executor whose every command succeeds, agreeing with
`exScanFail` on the network-list query. -/
def exScanOk : Exec := fun _ _ => (true, "h\nh\nh\nh\nOfficeWiFi PSK -55dBm")

/-- A connected station device. -/
def devConn : NetworkDevice :=
  { name := "wlan0", type := "station", powered := true, connected := true,
    network := "HomeNet" }

/-- The device-list text of end-to-end scenario A: a 3-line header and
the single data row `wlan0  station  on  connected  HomeNet`. -/
def deviceTextA : String :=
  "Devices\n--------------------\n  Name    Type     Powered  Connected  Network\nwlan0  station  on  connected  HomeNet"

/-! Helper lemmas about the tokenizer and the row loops. -/

theorem containsSub_iff (needle s : String) :
    containsSub needle s = true ↔ needle.data <:+: s.data := by
  simp [containsSub]

theorem pySplitAux_ne_nil_of_acc (l : List Char) :
    ∀ acc : List Char, acc ≠ [] → pySplitAux acc l ≠ [] := by
  induction l with
  | nil =>
    intro acc h
    simp [pySplitAux, h]
  | cons c cs ih =>
    intro acc h
    by_cases hw : c.isWhitespace
    · simp [pySplitAux, hw, h]
    · simp only [pySplitAux, if_neg hw]
      exact ih (c :: acc) (by simp)

theorem pySplitAux_nil_of_all_ws (l : List Char) (h : ∀ c ∈ l, c.isWhitespace = true) :
    pySplitAux [] l = [] := by
  induction l with
  | nil => rfl
  | cons c cs ih =>
    have hc := h c (by simp)
    simp only [pySplitAux, if_pos hc, if_pos rfl]
    exact ih fun x hx => h x (by simp [hx])

theorem pySplitAux_ne_nil_of_any (l : List Char)
    (h : l.any (fun c => !c.isWhitespace) = true) : pySplitAux [] l ≠ [] := by
  induction l with
  | nil => simp at h
  | cons c cs ih =>
    by_cases hw : c.isWhitespace
    · have hcs : cs.any (fun c => !c.isWhitespace) = true := by
        simpa [List.any_cons, hw] using h
      simp only [pySplitAux, if_pos hw, if_pos rfl]
      exact ih hcs
    · simp only [pySplitAux, if_neg hw]
      exact pySplitAux_ne_nil_of_acc cs [c] (by simp)

theorem pySplit_eq_nil_of_not_truthy (s : String) (h : stripTruthy s = false) :
    pySplit s = [] := by
  unfold pySplit
  rw [pySplitAux_nil_of_all_ws]
  · rfl
  · intro c hc
    simp only [stripTruthy, List.any_eq_false, Bool.not_eq_true'] at h
    simpa using h c hc

theorem pySplit_ne_nil_of_truthy (s : String) (h : stripTruthy s = true) :
    pySplit s ≠ [] := by
  unfold pySplit
  intro hc
  exact pySplitAux_ne_nil_of_any s.data (by simpa [stripTruthy] using h)
    (List.map_eq_nil_iff.mp hc)

theorem deviceRow?_some {line : String} {d : NetworkDevice}
    (h : deviceRow? line = some d) : d = deviceOfRow line := by
  unfold deviceRow? at h
  split at h
  · split at h
    · exact (Option.some.inj h).symm
    · exact absurd h (by simp)
  · exact absurd h (by simp)

theorem networkRow?_some {line : String} {nw : WirelessNetwork}
    (h : networkRow? line = some nw) : nw = networkOfRow line := by
  unfold networkRow? at h
  split at h
  · split at h
    · exact absurd h (by simp)
    · exact (Option.some.inj h).symm
  · exact absurd h (by simp)

theorem filterMap_deviceRow (rows : List String) :
    rows.filterMap deviceRow? =
      (rows.filter (fun r => !pyStartsWith r "-" && decide (3 ≤ (pySplit r).length))).map
        deviceOfRow := by
  induction rows with
  | nil => rfl
  | cons r rows ih =>
    rw [List.filterMap_cons, List.filter_cons]
    by_cases ht : stripTruthy r = true
    · by_cases hd : pyStartsWith r "-" = false
      · by_cases hl : 3 ≤ (pySplit r).length
        · simp [deviceRow?, ht, hd, hl, ih]
        · simp [deviceRow?, ht, hd, hl, ih]
      · have hd' : pyStartsWith r "-" = true := by
          simpa using hd
        simp [deviceRow?, ht, hd', ih]
    · have ht' : stripTruthy r = false := by
        simpa using ht
      have hnil : pySplit r = [] := pySplit_eq_nil_of_not_truthy r ht'
      simp [deviceRow?, ht', hnil, ih]

theorem filterMap_networkRow (rows : List String) :
    rows.filterMap networkRow? =
      (rows.filter (fun r => stripTruthy r && !pyStartsWith r "-")).map networkOfRow := by
  induction rows with
  | nil => rfl
  | cons r rows ih =>
    rw [List.filterMap_cons, List.filter_cons]
    by_cases ht : stripTruthy r = true
    · by_cases hd : pyStartsWith r "-" = false
      · have hne : pySplit r ≠ [] := pySplit_ne_nil_of_truthy r ht
        simp [networkRow?, ht, hd, hne, ih]
      · have hd' : pyStartsWith r "-" = true := by
          simpa using hd
        simp [networkRow?, ht, hd', ih]
    · have ht' : stripTruthy r = false := by
        simpa using ht
      simp [networkRow?, ht', ih]

/-! Theorems settling the claims. -/

/-- C1 (corrected): when the executor reports failure for the
device-list command, `get_devices` does not keep the prior stored
device list; it replaces the store wholesale with the empty list and
returns the empty list. -/
theorem c1_fail_replaces_store (ex : Exec) (st : MgrState)
    (hfail : (ex ["iwctl", "device", "list"] none).fst = false) :
    get_devices ex st = ({ st with devices := [] }, []) := by
  simp [get_devices, hfail]

theorem c1_fail_replaces_store_witness :
    get_devices exFail stOne = ({ stOne with devices := [] }, []) :=
  c1_fail_replaces_store exFail stOne rfl

theorem c1_counterexample :
    (get_devices exFail stOne).fst.devices ≠ stOne.devices := by decide

/-- C2 (corrected): parsing the scenario-A device-list text yields one
device named `wlan0` of type `station`, powered and connected, but its
`network` field is the 4th whitespace token `"connected"`, not the 5th
token `"HomeNet"`. -/
theorem c2_scenarioA :
    parseDevices deviceTextA =
      [{ name := "wlan0", type := "station", powered := true, connected := true,
         network := "connected" }] := by
  decide

theorem c2_counterexample :
    parseDevices deviceTextA ≠
      [{ name := "wlan0", type := "station", powered := true, connected := true,
         network := "HomeNet" }] := by
  decide

/-- C3 (corrected): for every kept device row, `powered` is true iff
`"on"` occurs as a contiguous substring of the row text — not iff the
row has a whitespace token `"on"`. -/
theorem c3_powered_substring (line : String) (d : NetworkDevice)
    (h : deviceRow? line = some d) :
    d.powered = true ↔ "on".data <:+: line.data := by
  rw [deviceRow?_some h]
  simp [deviceOfRow, containsSub]

theorem c3_powered_substring_witness :
    ({ name := "wlan0", type := "station", powered := true, connected := false,
       network := "", address := "" } : NetworkDevice).powered = true ↔
      "on".data <:+: "wlan0 station off".data :=
  c3_powered_substring "wlan0 station off" _ (by decide)

theorem c3_counterexample :
    deviceRow? "wlan0 station off" =
      some { name := "wlan0", type := "station", powered := true, connected := false } ∧
    "on" ∉ pySplit "wlan0 station off" := by
  decide

/-- C5 (corrected): a `scan_networks` call with a falsy device argument
and no powered station device in the store returns the plain empty list
and leaves the state untouched, for every executor; no failure message
is produced, so the result is indistinguishable from a successful scan
that found no network. -/
theorem c5_no_station_returns_empty (ex : Exec) (st : MgrState) (device0 : Option String)
    (h0 : strFalsy device0 = true)
    (hnone : ∀ d ∈ st.devices, ¬(d.type = "station" ∧ d.powered = true)) :
    scan_networks ex st device0 = (st, []) := by
  have hsel : selectStation st.devices = none := by
    rw [selectStation, List.find?_eq_none]
    intro d hd
    simp only [Bool.and_eq_true, beq_iff_eq]
    intro hcontra
    exact hnone d hd ⟨hcontra.1, hcontra.2⟩
  by_cases hb : st.devices = []
  · simp [scan_networks, h0, hb]
  · simp [scan_networks, h0, hb, hsel]

theorem c5_no_station_returns_empty_witness :
    scan_networks exEmptyNets stEmpty none = (stEmpty, []) :=
  c5_no_station_returns_empty exEmptyNets stEmpty none rfl (by decide)

theorem c5_counterexample :
    scan_networks exFail stEmpty none = (stEmpty, []) ∧
    (scan_networks exEmptyNets stOne none).snd = [] := by
  decide

/-- C6 (corrected): for a device-list text of a 3-line header followed
by data rows, `parseDeviceLines` keeps, in order, exactly the rows that
do not begin with `-` and tokenize to at least 3 whitespace tokens —
rows beginning with `-` are dropped even when they have 3 or more
tokens. -/
theorem c6_device_rows (h₁ h₂ h₃ : String) (rows : List String) :
    parseDeviceLines (h₁ :: h₂ :: h₃ :: rows) =
      (rows.filter (fun r => !pyStartsWith r "-" && decide (3 ≤ (pySplit r).length))).map
        deviceOfRow := by
  unfold parseDeviceLines
  exact filterMap_deviceRow rows

theorem c6_counterexample :
    parseDevices "h1\nh2\nh3\n- a b" = [] ∧ 3 ≤ (pySplit "- a b").length := by
  decide

theorem connectFailMsg_ne (out : String) :
    "Connection verification failed" ≠ "Connection failed: " ++ out := by
  intro h
  have h2 := congrArg String.data h
  rw [String.data_append] at h2
  have h3 := congrArg (List.take 19) h2
  rw [List.take_left' (by decide)] at h3
  exact absurd h3 (by decide)

/-- C4 (confirmed): when the connect command succeeds but the refreshed
device list has no device connected to the requested ssid, the
operation returns failure with the message
`Connection verification failed`, which differs from every message of
the form `Connection failed: <output>` returned when the command itself
fails. -/
theorem c4_verification_failure (ex : Exec) (st : MgrState) (device ssid : String)
    (pw : Option String)
    (hok : (ex ["iwctl", "station", device, "connect", ssid] pw).fst = true)
    (hver : ∀ d ∈ (get_devices ex st).snd, ¬(d.connected = true ∧ d.network = ssid)) :
    (connect_to_network ex st device ssid pw).snd =
      (false, "Connection verification failed") ∧
    ∀ out : String, "Connection verification failed" ≠ "Connection failed: " ++ out := by
  refine ⟨?_, connectFailMsg_ne⟩
  have hfind : (get_devices ex st).snd.find? (fun d => d.connected && d.network == ssid)
      = none := by
    rw [List.find?_eq_none]
    intro d hd
    simp only [Bool.and_eq_true, beq_iff_eq]
    intro hcontra
    exact hver d hd ⟨hcontra.1, hcontra.2⟩
  simp [connect_to_network, hok, hfind]

theorem c4_verification_failure_witness :
    (connect_to_network exEmptyNets stEmpty "wlan0" "HomeNet" none).snd =
      (false, "Connection verification failed") ∧
    ∀ out : String, "Connection verification failed" ≠ "Connection failed: " ++ out :=
  c4_verification_failure exEmptyNets stEmpty "wlan0" "HomeNet" none rfl (by decide)

theorem foldl_sigStep_id (parts : List String) :
    (∀ p ∈ parts, ∀ x : Nat, sigStep x p = x) →
    ∀ init : Nat, parts.foldl sigStep init = init := by
  induction parts with
  | nil =>
    intro _ init
    rfl
  | cons p ps ih =>
    intro h init
    rw [List.foldl_cons, h p (by simp) init]
    exact ih (fun q hq => h q (by simp [hq])) init

theorem foldl_sigStep_fixed (parts : List String) (c : Nat) :
    (∀ p ∈ parts, ∀ x : Nat, sigStep x p = x ∨ sigStep x p = c) →
    parts.foldl sigStep c = c := by
  induction parts with
  | nil =>
    intro _
    rfl
  | cons p ps ih =>
    intro h
    rw [List.foldl_cons]
    rcases h p (by simp) c with h1 | h1 <;> rw [h1] <;>
      exact ih fun q hq x => h q (by simp [hq]) x

theorem foldl_sigStep_sets (parts : List String) (c : Nat) :
    (∀ p ∈ parts, ∀ x : Nat, sigStep x p = x ∨ sigStep x p = c) →
    (∃ p ∈ parts, ∀ x : Nat, sigStep x p = c) →
    ∀ init : Nat, parts.foldl sigStep init = c := by
  induction parts with
  | nil =>
    intro _ hex
    simp at hex
  | cons p ps ih =>
    intro hall hex init
    rw [List.foldl_cons]
    by_cases hps : ∃ q ∈ ps, ∀ x : Nat, sigStep x q = c
    · exact ih (fun q hq => hall q (by simp [hq])) hps (sigStep init p)
    · obtain ⟨q, hq, hqs⟩ := hex
      have hqp : q = p := by
        rcases List.mem_cons.mp hq with h | h
        · exact h
        · exact absurd ⟨q, h, hqs⟩ hps
      subst hqp
      rw [hqs init]
      exact foldl_sigStep_fixed ps c fun r hr x => hall r (by simp [hr]) x

/-- C7 (confirmed): for a kept network row, when the row has a (unique)
token containing `dBm` whose text with `dBm` removed and stripped
parses as a signed integer `n`, the parsed signal strength is `|n|`;
when every `dBm` token fails to parse (in particular when there is
none), the signal strength is the default 50. -/
theorem c7_signal_strength (line : String) (nw : WirelessNetwork)
    (hrow : networkRow? line = some nw) :
    (∀ (t : String) (n : Int), t ∈ pySplit line → containsSub "dBm" t = true →
       pyInt (pyStrip (pyReplace t "dBm" "")) = some n →
       (∀ u ∈ pySplit line, containsSub "dBm" u = true → u = t) →
       nw.signal_strength = n.natAbs) ∧
    ((∀ t ∈ pySplit line, containsSub "dBm" t = true →
        pyInt (pyStrip (pyReplace t "dBm" "")) = none) →
      nw.signal_strength = 50) := by
  have hnw : nw = networkOfRow line := networkRow?_some hrow
  subst hnw
  constructor
  · intro t n ht hd hp huniq
    show parseSignal (pySplit line) = n.natAbs
    unfold parseSignal
    apply foldl_sigStep_sets
    · intro p hmem x
      by_cases hdp : containsSub "dBm" p = true
      · have hpt : p = t := huniq p hmem hdp
        subst hpt
        right
        simp [sigStep, hdp, hp]
      · left
        simp [sigStep, hdp]
    · exact ⟨t, ht, fun x => by simp [sigStep, hd, hp]⟩
  · intro hfail
    show parseSignal (pySplit line) = 50
    unfold parseSignal
    apply foldl_sigStep_id
    intro p hmem x
    by_cases hdp : containsSub "dBm" p = true
    · simp [sigStep, hdp, hfail p hmem hdp]
    · simp [sigStep, hdp]

theorem c7_signal_strength_witness :
    ({ ssid := "OfficeWiFi", security := "secured", signal_strength := 55 } :
        WirelessNetwork).signal_strength = (-55 : Int).natAbs :=
  (c7_signal_strength "OfficeWiFi PSK -55dBm"
      { ssid := "OfficeWiFi", security := "secured", signal_strength := 55 }
      (by decide)).1
    "-55dBm" (-55) (by decide) (by decide) (by decide) (by decide)

/-- C8 (confirmed): `update_status` reports `connected to <network> on
<name>` for the first device in stored order whose `connected` field is
true, and `disconnected` when no stored device is connected. -/
theorem c8_status_projection (pre post : List NetworkDevice) (d : NetworkDevice)
    (hpre : ∀ x ∈ pre, x.connected = false) (hd : d.connected = true) :
    update_status (pre ++ d :: post) =
      ("connected to " ++ (d.network ++ " on " ++ d.name), d.network ++ " on " ++ d.name) ∧
    update_status pre = ("disconnected", "") := by
  have hnone : pre.find? (fun x => x.connected) = none := by
    rw [List.find?_eq_none]
    intro x hx
    simp [hpre x hx]
  constructor
  · unfold update_status
    rw [List.find?_append, hnone, Option.none_or, List.find?_cons_of_pos _ hd]
  · unfold update_status
    rw [hnone]

theorem c8_status_projection_witness :
    update_status ([] ++ devConn :: []) =
      ("connected to " ++ (devConn.network ++ " on " ++ devConn.name),
        devConn.network ++ " on " ++ devConn.name) ∧
    update_status [] = ("disconnected", "") :=
  c8_status_projection [] [] devConn (by simp) rfl

/-- C9 (confirmed): the scan-trigger result is discarded — a
`scan_networks` call whose trigger command fails behaves exactly like
one whose executor agrees on the network-list query, and it still
replaces the stored network list with the parse of that query's output
(or `[]` when the query itself fails). -/
theorem c9_scan_trigger_discarded (ex ex2 : Exec) (st : MgrState) (dev : String)
    (hdev : dev ≠ "")
    (hfail : (ex ["iwctl", "station", dev, "scan"] none).fst = false)
    (hagree : ex ["iwctl", "station", dev, "get-networks"] none =
      ex2 ["iwctl", "station", dev, "get-networks"] none) :
    scan_networks ex st (some dev) = scan_networks ex2 st (some dev) ∧
    scan_networks ex st (some dev) =
      ({ st with networks :=
          if (ex ["iwctl", "station", dev, "get-networks"] none).fst = true then
            parseNetworks (ex ["iwctl", "station", dev, "get-networks"] none).snd
          else [] },
        if (ex ["iwctl", "station", dev, "get-networks"] none).fst = true then
          parseNetworks (ex ["iwctl", "station", dev, "get-networks"] none).snd
        else []) := by
  have hfal : strFalsy (some dev) = false := by
    simp only [strFalsy]
    exact beq_eq_false_iff_ne.mpr hdev
  constructor
  · simp [scan_networks, hfal, hagree]
  · simp [scan_networks, hfal]

theorem c9_scan_trigger_discarded_witness :
    scan_networks exScanFail stOne (some "wlan0") = scan_networks exScanOk stOne (some "wlan0") ∧
    scan_networks exScanFail stOne (some "wlan0") =
      ({ stOne with networks :=
          if (exScanFail ["iwctl", "station", "wlan0", "get-networks"] none).fst = true then
            parseNetworks (exScanFail ["iwctl", "station", "wlan0", "get-networks"] none).snd
          else [] },
        if (exScanFail ["iwctl", "station", "wlan0", "get-networks"] none).fst = true then
          parseNetworks (exScanFail ["iwctl", "station", "wlan0", "get-networks"] none).snd
        else []) :=
  c9_scan_trigger_discarded exScanFail exScanOk stOne "wlan0" (by decide) (by decide)
    (by decide)

/-- C10 (corrected): after the 4-line header, every non-blank network
row not beginning with `-` produces exactly one record whose ssid is
the row's first whitespace token (there is no minimum-token skip rule);
but the fields of a one-token row follow the substring rules, so only a
one-token row whose text contains none of `PSK`, `802.1X`, `>` and
whose token does not contain `dBm` yields security `open`, signal
strength 50 and connected false. -/
theorem c10_network_rows (h₁ h₂ h₃ h₄ : String) (rows : List String) (r t : String)
    (hone : pySplit r = [t])
    (hps : containsSub "PSK" r = false) (h8 : containsSub "802.1X" r = false)
    (hgt : containsSub ">" r = false) (hdbm : containsSub "dBm" t = false) :
    parseNetworkLines (h₁ :: h₂ :: h₃ :: h₄ :: rows) =
      (rows.filter (fun x => stripTruthy x && !pyStartsWith x "-")).map networkOfRow ∧
    networkOfRow r =
      { ssid := t, security := "open", signal_strength := 50, connected := false } := by
  constructor
  · unfold parseNetworkLines
    exact filterMap_networkRow rows
  · simp [networkOfRow, hone, hps, h8, hgt, parseSignal, sigStep, hdbm]

theorem c10_network_rows_witness :
    parseNetworkLines ("n1" :: "n2" :: "n3" :: "n4" :: ["MyNet"]) =
      (["MyNet"].filter (fun x => stripTruthy x && !pyStartsWith x "-")).map networkOfRow ∧
    networkOfRow "MyNet" =
      { ssid := "MyNet", security := "open", signal_strength := 50, connected := false } :=
  c10_network_rows "n1" "n2" "n3" "n4" ["MyNet"] "MyNet" "MyNet" (by decide) (by decide)
    (by decide) (by decide) (by decide)

theorem c10_counterexample :
    networkRow? "PSK" = some { ssid := "PSK", security := "secured", signal_strength := 50 } ∧
    ("secured" : String) ≠ "open" := by
  decide

end Iwd
